import Mathlib

/-!
Verification development for the gammapy-benchmarks repository.

The repository holds two driver scripts:
  * `src/benchmarks/spectrum_1d.py` — a timing benchmark over a stacked
    1-D spectral dataset;
  * `src/validation/hess-dl3-dr1/run.py` — a validation driver running a
    1-D and a 3-D analysis path per target.

The scripts are orchestration over an external analysis library
(gammapy).  The embedding below models the control and data flow that
lives in this repository: library calls are treated as opaque values or
function parameters, while the repository's own computations (report
assembly, observation truncation, safe-energy threshold arithmetic,
upper-limit flagging, covariance slicing, target lookup, dataset
selection) are translated faithfully from the Python source.
-/

namespace GammapyBenchmarks

/-! ### Embedding of `src/benchmarks/spectrum_1d.py` -/

/-- The five timing-stage keys of the benchmark (`data_preparation`,
`writing`, `reading`, `data_fitting`, `flux_point`), in the order the
stages run in `run_benchmark`. -/
def stageKeys : List String :=
  ["data_preparation", "writing", "reading", "data_fitting", "flux_point"]

/-- The `info` mapping assembled by `run_benchmark` and dumped to
`bench.yaml` (with `sort_keys=False`, so insertion order is kept).
`ts i` is the value of the `i`-th `time.time()` call: `ts 0` before
`data_prep`, `ts 1` after it, ..., `ts 5` after `flux_point`.  The
mapping starts with the `n_obs` entry and then records the elapsed
time of each stage. -/
def run_benchmark (n_obs : ℕ) (ts : Fin 6 → ℚ) : List (String × ℚ) :=
  [("n_obs", (n_obs : ℚ)),
   ("data_preparation", ts 1 - ts 0),
   ("writing", ts 2 - ts 1),
   ("reading", ts 3 - ts 2),
   ("data_fitting", ts 4 - ts 3),
   ("flux_point", ts 5 - ts 4)]

/-! ### Embedding of `src/validation/hess-dl3-dr1/run.py` -/

/-- The module-level `DEBUG` flag of the validation driver (set to
`True` in the source). -/
def DEBUG : Bool := true

/-- Parameters of a log-spaced `MapAxis.from_bounds` energy grid:
lower bound, upper bound (TeV), number of bins, interpolation. -/
structure GridSpec where
  emin : ℚ
  emax : ℚ
  nbin : ℕ
  interp : String
  deriving DecidableEq

/-- The `NBIN` constant: `24 if DEBUG is False else 1`. -/
def NBIN (debug : Bool) : ℕ := if debug = false then 24 else 1

/-- The `FLUXP_EDGES` grid used for flux-point estimation in both
paths: log-spaced from 0.1 to 100 TeV with `NBIN debug` bins. -/
def FLUXP_EDGES (debug : Bool) : GridSpec :=
  { emin := 1/10, emax := 100, nbin := NBIN debug, interp := "log" }

/-- The `E_RECO` reconstruction-energy grid: log-spaced from 0.1 to
100 TeV with 72 bins (independent of `DEBUG`). -/
def E_RECO : GridSpec :=
  { emin := 1/10, emax := 100, nbin := 72, interp := "log" }

/-- An observation as the 1-D path sees it: its identifier and the
`TARGET_NAME` column of the observation table. -/
structure Obs where
  obs_id : ℕ
  target : String
  deriving DecidableEq

/-- Observation selection of `run_analysis_1d`: keep the rows of the
observation table whose `TARGET_NAME` equals the target's name. -/
def selectObs (allObs : List Obs) (name : String) : List Obs :=
  allObs.filter (fun o => o.target == name)

/-- The debug truncation `observations = [observations[0]]` guarded by
`if DEBUG is True`.  Python raises `IndexError` on an empty selection,
modelled by `none`. -/
def truncateDebug (debug : Bool) (obs : List Obs) : Option (List Obs) :=
  if debug = true then obs.head?.map (fun o => [o]) else some obs

/-- The observation list the 1-D path loops over (reduction, fit):
catalog selection followed by the debug truncation. -/
def observations1d (allObs : List Obs) (name : String) : Option (List Obs) :=
  truncateDebug DEBUG (selectObs allObs name)

/-! Safe-energy threshold of the 3-D path (`run_analysis_3d`).  The
background spectrum is a list of bin values `data` with matching bin
centers `centers`; `bias` is the value of
`dataset.edisp.get_bias_energy(0.1)`, an opaque library result. -/

/-- Maximum of a list of rationals (`bkg_spectrum.data.max()`); `none`
on the empty list, where numpy errors. -/
def listMax : List ℚ → Option ℚ
  | [] => none
  | a :: l =>
    match listMax l with
    | none => some a
    | some m => some (max a m)

/-- First index of a value in a list (`list(...).index(peak)`); `none`
when absent, where Python raises `ValueError`. -/
def firstIdxOf (l : List ℚ) (a : ℚ) : Option ℕ :=
  match l with
  | [] => none
  | x :: r => if x = a then some 0 else (firstIdxOf r a).map (· + 1)

/-- The `e_thr_bkg` computation: the bin center at the first index
where the background spectrum attains its maximum. -/
def e_thr_bkg (data centers : List ℚ) : Option ℚ :=
  (listMax data).bind fun peak =>
    (firstIdxOf data peak).bind fun idx => centers[idx]?

/-- The safe-energy threshold `esafe = max(e_thr_bias, e_thr_bkg)`
applied as `dataset.mask_fit`. -/
def esafe (e_thr_bias : ℚ) (data centers : List ℚ) : Option ℚ :=
  (e_thr_bkg data centers).map fun e => max e_thr_bias e

/-! Upper-limit flagging of flux-point tables. -/

/-- A row of a flux-point table, with the columns the driver touches
or writes: the test statistic `ts` it reads, the `is_ul` flag it
overwrites, and representative payload columns it passes through. -/
structure FluxRow where
  e_ref : ℚ
  dnde : ℚ
  ts : ℚ
  is_ul : Bool
  deriving DecidableEq

/-- The column assignment
`flux_points.table["is_ul"] = flux_points.table["ts"] < 4` performed
by both `run_analysis_1d` and `run_analysis_3d` before the table is
written. -/
def set_is_ul (rows : List FluxRow) : List FluxRow :=
  rows.map fun r => { r with is_ul := decide (r.ts < 4) }

/-! Stage structure of the 3-D path and the effect of `DEBUG`. -/

/-- The stages of `run_analysis_3d`, in source order. -/
inductive Stage where
  | obsSelection
  | dataReduction
  | safeMask
  | modelSetup
  | fit
  | fitSummary
  | fluxPoints
  | writeTable
  deriving DecidableEq

/-- The stage sequence executed by `run_analysis_3d`; the source runs
the same straight-line sequence whatever the value of `DEBUG`. -/
def stages3d (_debug : Bool) : List Stage :=
  [Stage.obsSelection, Stage.dataReduction, Stage.safeMask,
   Stage.modelSetup, Stage.fit, Stage.fitSummary, Stage.fluxPoints,
   Stage.writeTable]

/-- The `reoptimize` argument handed to `FluxPointsEstimator` in the
3-D path: `True if DEBUG is False else False`. -/
def reoptimize (debug : Bool) : Bool := if debug = false then true else false

/-! Covariance slicing after the 3-D fit. -/

/-- The covariance block the driver attaches to the reported
parameters: the slice `covariance[0:model_npars, 0:model_npars]` of
the full fit covariance, where `model_npars` is the number of the
source sky-model's parameter names. -/
def reportedCov (C : ℕ → ℕ → ℚ) (model_npars : ℕ) :
    Matrix (Fin model_npars) (Fin model_npars) ℚ :=
  fun i j => C i.val j.val

/-- Modelled from the spec: the sub-block of the full covariance whose
rows and columns correspond to the source sky-model's own parameters,
given the positions those parameters occupy in the full fit parameter
ordering. -/
def sourceParamBlock (C : ℕ → ℕ → ℚ) (model_npars : ℕ)
    (positions : Fin model_npars → ℕ) :
    Matrix (Fin model_npars) (Fin model_npars) ℚ :=
  fun i j => C (positions i) (positions j)

/-! Target lookup and the main loop. -/

/-- An entry of `targets.yaml`, with the fields the lookup and the
analyses read. -/
structure Target where
  tag : String
  name : String
  deriving DecidableEq

/-- The per-source lookup in `main`:
`list(filter(lambda _: _["tag"] == source, targets))[0]`.  `none`
models the uncaught `IndexError` on an empty filter result. -/
def selectTarget (targets : List Target) (source : String) : Option Target :=
  (targets.filter (fun t => t.tag == source)).head?

/-- One analysis invocation performed by `main` for a source: which
target dictionary was used and whether it was the 1-D or 3-D path. -/
structure Event where
  source : String
  target : Target
  is1d : Bool
  deriving DecidableEq

/-- The `main` loop over the hard-coded source list: for each source
look up its target dictionary and run the 1-D then the 3-D analysis.
Returns the events performed before any abort, and `some source` when
the lookup for `source` raised `IndexError` (aborting the rest). -/
def mainRun (targets : List Target) : List String → List Event × Option String
  | [] => ([], none)
  | s :: rest =>
    match selectTarget targets s with
    | none => ([], some s)
    | some t =>
      let r := mainRun targets rest
      (⟨s, t, true⟩ :: ⟨s, t, false⟩ :: r.1, r.2)

/-- The hard-coded source list of `main`. -/
def sources : List String := ["crab", "msh1552", "pks2155"]

/-! Which datasets each post-reduction stage of `run_analysis_3d`
receives.  After `analysis.get_datasets()` produces `ndatasets`
datasets, the driver binds `dataset = analysis.datasets[0]` and then:
sets `mask_fit` on `dataset`; calls `analysis.set_model` and
`analysis.run_fit` on the analysis object, which holds all the
datasets; freezes parameters of `dataset`; and passes
`datasets=[dataset]` to `FluxPointsEstimator`. -/

/-- Trace of the post-reduction stage calls of `run_analysis_3d`, each
with the list of dataset indices the call receives. -/
def datasetUse3d (ndatasets : ℕ) : List (String × List ℕ) :=
  [("mask_fit", [0]),
   ("set_model", List.range ndatasets),
   ("run_fit", List.range ndatasets),
   ("freeze_params", [0]),
   ("flux_points", [0])]

/-- The dataset indices a given post-reduction stage of
`run_analysis_3d` receives. -/
def stageIdxs (ndatasets : ℕ) (stage : String) : Option (List ℕ) :=
  (datasetUse3d ndatasets).lookup stage

/-! ### Helper lemmas -/

/-- A nonempty list has a `listMax` that is an upper bound and a
member. -/
theorem listMax_spec {l : List ℚ} (hne : l ≠ []) :
    ∃ m, listMax l = some m ∧ m ∈ l ∧ ∀ x ∈ l, x ≤ m := by
  induction l with
  | nil => exact absurd rfl hne
  | cons a l ih =>
    cases hm : listMax l with
    | none =>
      have hl : l = [] := by
        cases l with
        | nil => rfl
        | cons b r =>
          rw [listMax] at hm
          cases h2 : listMax r <;> simp [h2] at hm
      subst hl
      refine ⟨a, by simp [listMax], List.mem_singleton_self a, ?_⟩
      intro x hx
      rw [List.mem_singleton] at hx
      exact le_of_eq hx
    | some m =>
      have hlne : l ≠ [] := by
        intro h
        subst h
        simp [listMax] at hm
      obtain ⟨m', hm', hmem, hbound⟩ := ih hlne
      rw [hm] at hm'
      obtain rfl := Option.some.inj hm'
      refine ⟨max a m, ?_, ?_, ?_⟩
      · rw [listMax, hm]
      · rcases max_choice a m with h | h
        · rw [h]; exact List.mem_cons_self a l
        · rw [h]; exact List.mem_cons_of_mem a hmem
      · intro x hx
        rcases List.mem_cons.mp hx with h | h
        · exact h ▸ le_max_left a m
        · exact le_trans (hbound x h) (le_max_right a m)

/-- `firstIdxOf` finds an index of any member, and the list holds that
value there. -/
theorem firstIdxOf_spec {l : List ℚ} {a : ℚ} (ha : a ∈ l) :
    ∃ i, firstIdxOf l a = some i ∧ l[i]? = some a := by
  induction l with
  | nil => exact absurd ha (List.not_mem_nil a)
  | cons x r ih =>
    by_cases hx : x = a
    · exact ⟨0, by simp [firstIdxOf, hx], by simp [hx]⟩
    · have har : a ∈ r := by
        rcases List.mem_cons.mp ha with h | h
        · exact absurd h.symm hx
        · exact h
      obtain ⟨i, hi, hget⟩ := ih har
      exact ⟨i + 1, by simp [firstIdxOf, hx, hi], by simpa using hget⟩

/-- `filter` then `head` (Python `list(filter(...))[0]`) returns the
first element satisfying the predicate. -/
theorem filter_head?_eq_find? {α : Type} (p : α → Bool) (l : List α) :
    (l.filter p).head? = l.find? p := by
  induction l with
  | nil => rfl
  | cons a l ih =>
    by_cases hp : p a
    · simp [List.filter_cons, List.find?, hp]
    · simp only [Bool.not_eq_true] at hp
      simp [List.filter_cons, List.find?, hp, ih]

/-! ### Claims -/

/-- C1 counterexample: the `bench.yaml` mapping does not contain
exactly the five stage keys — it also contains the key `n_obs`, which
is not a stage key. -/
theorem C1_counterexample :
    "n_obs" ∈ (run_benchmark 1 (fun _ => 0)).map Prod.fst ∧
      "n_obs" ∉ stageKeys ∧
      (run_benchmark 1 (fun _ => 0)).map Prod.fst ≠ stageKeys := by
  decide

/-- C1 (amended): for every `N_OBS ≥ 1`, a completed benchmark run
writes a flat mapping whose keys are `n_obs` followed by exactly the
five stage keys, and — provided the wall-clock readings are
nondecreasing — each stage key maps to a non-negative value. -/
theorem C1_report (n : ℕ) (_hn : 1 ≤ n) (ts : Fin 6 → ℚ)
    (hts : Monotone ts) :
    (run_benchmark n ts).map Prod.fst = "n_obs" :: stageKeys ∧
      ∀ k ∈ stageKeys, ∃ v,
        (run_benchmark n ts).lookup k = some v ∧ 0 ≤ v := by
  refine ⟨rfl, ?_⟩
  intro k hk
  fin_cases hk
  · exact ⟨ts 1 - ts 0, rfl, sub_nonneg.mpr (hts (by decide))⟩
  · exact ⟨ts 2 - ts 1, rfl, sub_nonneg.mpr (hts (by decide))⟩
  · exact ⟨ts 3 - ts 2, rfl, sub_nonneg.mpr (hts (by decide))⟩
  · exact ⟨ts 4 - ts 3, rfl, sub_nonneg.mpr (hts (by decide))⟩
  · exact ⟨ts 5 - ts 4, rfl, sub_nonneg.mpr (hts (by decide))⟩

/-- C1 witness: the amended report property at `N_OBS = 1` and a
constant clock. -/
theorem C1_report_witness :
    (run_benchmark 1 (fun _ => 0)).map Prod.fst = "n_obs" :: stageKeys ∧
      ∀ k ∈ stageKeys, ∃ v,
        (run_benchmark 1 (fun _ => 0)).lookup k = some v ∧ 0 ≤ v :=
  C1_report 1 (by decide) (fun _ => 0) monotone_const

/-- C2: in the 3-D path, whenever the background spectrum is nonempty
and has one bin center per bin value, the applied safe-energy
threshold equals `max(e_thr_bias, e_thr_bkg)`, where `e_thr_bkg` is a
bin center at an index where the background spectrum attains its
maximum. -/
theorem C2_safe_threshold (bias : ℚ) (data centers : List ℚ)
    (hne : data ≠ []) (hlen : centers.length = data.length) :
    ∃ (i : ℕ) (p c : ℚ), data[i]? = some p ∧ (∀ x ∈ data, x ≤ p) ∧
      centers[i]? = some c ∧
      esafe bias data centers = some (max bias c) := by
  obtain ⟨m, hmax, hmem, hbound⟩ := listMax_spec hne
  obtain ⟨i, hidx, hget⟩ := firstIdxOf_spec hmem
  have hi : i < data.length := by
    by_contra h
    rw [List.getElem?_eq_none (le_of_not_lt h)] at hget
    exact Option.noConfusion hget
  have hic : i < centers.length := hlen ▸ hi
  have hc : centers[i]? = some centers[i] := List.getElem?_eq_getElem hic
  refine ⟨i, m, centers[i], hget, hbound, hc, ?_⟩
  simp [esafe, e_thr_bkg, hmax, hidx, hc]

/-- C2 witness: the safe-threshold property at a concrete spectrum. -/
theorem C2_safe_threshold_witness :
    ∃ (i : ℕ) (p c : ℚ), ([1, 5, 3, 5] : List ℚ)[i]? = some p ∧
      (∀ x ∈ ([1, 5, 3, 5] : List ℚ), x ≤ p) ∧
      ([10, 20, 30, 40] : List ℚ)[i]? = some c ∧
      esafe 2 [1, 5, 3, 5] [10, 20, 30, 40] = some (max 2 c) :=
  C2_safe_threshold 2 [1, 5, 3, 5] [10, 20, 30, 40] (by decide) (by decide)

/-- C3: in every flux-point table written by either path, a row has
`is_ul = true` exactly when its `ts` (significance) value is below
4. -/
theorem C3_is_ul_iff (rows : List FluxRow) (r : FluxRow)
    (hr : r ∈ set_is_ul rows) : r.is_ul = true ↔ r.ts < 4 := by
  rcases List.mem_map.mp hr with ⟨r0, _, rfl⟩
  simp

/-- C3 witness: the upper-limit flag rule at a concrete row. -/
theorem C3_is_ul_iff_witness :
    (FluxRow.mk 1 2 3 true).is_ul = true ↔ (FluxRow.mk 1 2 3 true).ts < 4 :=
  C3_is_ul_iff [FluxRow.mk 1 2 3 false] (FluxRow.mk 1 2 3 true) (by decide)

/-- C4: with debug mode enabled, whenever the catalog selection for a
target is nonempty, the 1-D path loops over exactly one observation —
the first of the selection. -/
theorem C4_debug_single_obs (allObs : List Obs) (name : String)
    (hne : selectObs allObs name ≠ []) :
    ∃ o, (selectObs allObs name).head? = some o ∧
      observations1d allObs name = some [o] ∧
      ∀ l, observations1d allObs name = some l → l.length = 1 := by
  obtain ⟨o, hd⟩ := Option.ne_none_iff_exists'.mp
    (by rwa [Ne, List.head?_eq_none_iff] : (selectObs allObs name).head? ≠ none)
  have hobs : observations1d allObs name = some [o] := by
    simp [observations1d, truncateDebug, DEBUG, hd]
  refine ⟨o, hd, hobs, ?_⟩
  intro l hl
  rw [hobs] at hl
  rw [← Option.some.inj hl]
  rfl

/-- C4 witness: the single-observation property at a concrete
observation table. -/
theorem C4_debug_single_obs_witness :
    ∃ o, (selectObs [Obs.mk 1 "Crab", Obs.mk 2 "Crab"] "Crab").head? = some o ∧
      observations1d [Obs.mk 1 "Crab", Obs.mk 2 "Crab"] "Crab" = some [o] ∧
      ∀ l, observations1d [Obs.mk 1 "Crab", Obs.mk 2 "Crab"] "Crab" = some l →
        l.length = 1 :=
  C4_debug_single_obs [Obs.mk 1 "Crab", Obs.mk 2 "Crab"] "Crab" (by decide)

/-- C5 counterexample: the flux-point energy grid is not the same
regardless of the debug flag — with debug it has a single bin, without
it 24. -/
theorem C5_counterexample :
    FLUXP_EDGES true ≠ FLUXP_EDGES false ∧
      (FLUXP_EDGES true).nbin = 1 ∧ (FLUXP_EDGES false).nbin = 24 := by
  refine ⟨?_, rfl, rfl⟩
  intro h
  have h2 : (1 : ℕ) = 24 := congrArg GridSpec.nbin h
  exact absurd h2 (by decide)

/-- C5 (amended): toggling the debug flag leaves the stage order
unchanged, truncates the observation set to its first element, and
disables background re-optimization during flux-point estimation — but
it also coarsens the flux-point energy grid from 24 log-spaced bins
over 0.1–100 TeV to a single bin, so the grid is not independent of
the flag. -/
theorem C5_debug_effects :
    stages3d true = stages3d false ∧
      reoptimize true = false ∧
      reoptimize false = true ∧
      truncateDebug true [Obs.mk 1 "a", Obs.mk 2 "a"] = some [Obs.mk 1 "a"] ∧
      truncateDebug false [Obs.mk 1 "a", Obs.mk 2 "a"] =
        some [Obs.mk 1 "a", Obs.mk 2 "a"] ∧
      FLUXP_EDGES false = { emin := 1/10, emax := 100, nbin := 24, interp := "log" } ∧
      FLUXP_EDGES true = { emin := 1/10, emax := 100, nbin := 1, interp := "log" } :=
  ⟨rfl, rfl, rfl, rfl, rfl, rfl, rfl⟩

/-- C7: the covariance attached to the reported parameters is the
square block of side `model_npars` (the number of source sky-model
parameter names), and — given that the source model's parameters occupy
the leading positions of the full fit parameter ordering — it equals
the sub-block of the full covariance whose rows and columns correspond
to those parameters. -/
theorem C7_covariance_block (C : ℕ → ℕ → ℚ) (paramNames : List String)
    (positions : Fin paramNames.length → ℕ)
    (hpos : ∀ i, positions i = i.val) :
    reportedCov C paramNames.length =
      sourceParamBlock C paramNames.length positions := by
  funext i j
  simp [reportedCov, sourceParamBlock, hpos]

/-- C7 witness: the covariance-block property at a concrete covariance
and the three power-law parameter names. -/
theorem C7_covariance_block_witness :
    reportedCov (fun i j => (i : ℚ) + 10 * j)
        ["index", "amplitude", "reference"].length =
      sourceParamBlock (fun i j => (i : ℚ) + 10 * j)
        ["index", "amplitude", "reference"].length (fun i => i.val) :=
  C7_covariance_block (fun i j => (i : ℚ) + 10 * j)
    ["index", "amplitude", "reference"] (fun i => i.val) (fun _ => rfl)

/-- C9: `main`'s per-source lookup returns the first `targets.yaml`
entry whose `tag` equals the source (ignoring later matches), and when
no entry matches a source of the hard-coded list, the run aborts with
the uncaught indexing error and performs no analysis event for that
source. -/
theorem C9_target_lookup (targets : List Target) (srcs : List String)
    (s : String) (hnone : selectTarget targets s = none) (hs : s ∈ srcs) :
    (∀ q, selectTarget targets q = targets.find? (fun t => t.tag == q)) ∧
      (mainRun targets srcs).2.isSome = true ∧
      ∀ e ∈ (mainRun targets srcs).1, e.source ≠ s := by
  refine ⟨fun q => filter_head?_eq_find? _ targets, ?_⟩
  induction srcs with
  | nil => exact absurd hs (List.not_mem_nil s)
  | cons s' rest ih =>
    cases hsel : selectTarget targets s' with
    | none =>
      constructor
      · simp [mainRun, hsel]
      · intro e he
        simp [mainRun, hsel] at he
    | some t =>
      have hne : s' ≠ s := by
        intro h
        rw [h, hnone] at hsel
        exact Option.noConfusion hsel
      have hs' : s ∈ rest := by
        rcases List.mem_cons.mp hs with h | h
        · exact absurd h.symm hne
        · exact h
      obtain ⟨hsome, hev⟩ := ih hs'
      constructor
      · simpa [mainRun, hsel] using hsome
      · intro e he
        simp only [mainRun, hsel, List.mem_cons] at he
        rcases he with rfl | rfl | h
        · exact hne
        · exact hne
        · exact hev e h

/-- C9 witness: a target table with no entry for `msh1552` makes the
run abort and perform no analysis for that source. -/
theorem C9_target_lookup_witness :
    (∀ q, selectTarget [Target.mk "crab" "Crab"] q =
        ([Target.mk "crab" "Crab"]).find? (fun t => t.tag == q)) ∧
      (mainRun [Target.mk "crab" "Crab"] sources).2.isSome = true ∧
      ∀ e ∈ (mainRun [Target.mk "crab" "Crab"] sources).1,
        e.source ≠ "msh1552" :=
  C9_target_lookup [Target.mk "crab" "Crab"] sources "msh1552"
    (by decide) (by decide)

/-- C10 counterexample: with two datasets produced by the reduction,
the fit stage receives both of them — `analysis.run_fit()` acts on the
analysis object holding every dataset, so the further datasets are not
ignored by every subsequent stage. -/
theorem C10_counterexample :
    stageIdxs 2 "run_fit" = some [0, 1] ∧ (1 : ℕ) ∉ ([0] : List ℕ) := by
  decide

/-- C10 (amended): after `dataset = analysis.datasets[0]`, the
safe-energy mask, the parameter-freezing workaround, and flux-point
estimation use only the first dataset, while `set_model` and the fit
are invoked on the analysis object carrying all `n` reduced
datasets. -/
theorem C10_dataset_use (n : ℕ) (hn : 2 ≤ n) :
    stageIdxs n "mask_fit" = some [0] ∧
      stageIdxs n "freeze_params" = some [0] ∧
      stageIdxs n "flux_points" = some [0] ∧
      stageIdxs n "set_model" = some (List.range n) ∧
      stageIdxs n "run_fit" = some (List.range n) ∧
      1 ∈ List.range n ∧ (1 : ℕ) ∉ ([0] : List ℕ) := by
  refine ⟨rfl, rfl, rfl, rfl, rfl, ?_, by decide⟩
  exact List.mem_range.mpr (lt_of_lt_of_le one_lt_two hn)

/-- C10 witness: the amended dataset-use property at two datasets. -/
theorem C10_dataset_use_witness :
    stageIdxs 2 "mask_fit" = some [0] ∧
      stageIdxs 2 "freeze_params" = some [0] ∧
      stageIdxs 2 "flux_points" = some [0] ∧
      stageIdxs 2 "set_model" = some (List.range 2) ∧
      stageIdxs 2 "run_fit" = some (List.range 2) ∧
      1 ∈ List.range 2 ∧ (1 : ℕ) ∉ ([0] : List ℕ) :=
  C10_dataset_use 2 (by decide)

end GammapyBenchmarks
